import Mathlib

/-!
Shallow embedding of the FlyStellar flight-booking contract
(`src/contracts/hello-world/src/lib.rs`) and verification of its
specification claims.

Modelling conventions:
* `BytesN<32>` flight identifiers are modelled by `Nat`, `soroban_sdk::Symbol`
  by `String`, `Address` by `String`.
* `u32` is modelled by `Nat` together with the explicit bound `u32Max` where
  the source performs checked arithmetic; `u32::saturating_sub` coincides with
  truncated `Nat` subtraction.  `i128` is modelled by `Int` with explicit
  bounds `i128Min`/`i128Max` where the source uses `checked_mul`.
* The key-value store is a record with one field per `DataKey` family:
  `Admin` (instance tier), `Flight(id)`, `RouteRegistry(src,dest)`,
  `GlobalRegistry`, `PassengerList(flight_id)`, `PassengerRegistry(addr)`.
* Every public entry point is a function from an authorization context (the
  list of addresses that authorized the call, modelling `require_auth`) and a
  store to `Except Err ...`.  The Soroban host discards all writes of a call
  that panics, so an `Except.error` result models an aborted call with no
  state modification; `Err.err` models `panic_with_error!` with a contract
  error code, `Err.trap` models `expect`/`unwrap`/checked-arithmetic panics,
  and `Err.authFail` models a failed `require_auth`.
-/

set_option maxRecDepth 100000

namespace FlyStellar

/-- Flight identifiers: model of `BytesN<32>`. -/
abbrev FlightId := Nat

/-- Interned string tokens: model of `soroban_sdk::Symbol`. -/
abbrev Sym := String

/-- Account addresses: model of `soroban_sdk::Address`. -/
abbrev Address := String

/-- Smallest `i128` value. -/
def i128Min : Int := -(2 ^ 127)

/-- Largest `i128` value. -/
def i128Max : Int := 2 ^ 127 - 1

/-- Largest `u32` value. -/
def u32Max : Nat := 2 ^ 32 - 1

/-- Rust `i128::checked_mul`: `none` exactly when the product leaves the
`i128` range. -/
def checkedMulI128 (a b : Int) : Option Int :=
  if i128Min ≤ a * b ∧ a * b ≤ i128Max then some (a * b) else none

/-- Rust `u32::checked_add`: `none` exactly when the sum exceeds `u32::MAX`. -/
def checkedAddU32 (a b : Nat) : Option Nat :=
  if a + b ≤ u32Max then some (a + b) else none

/-- Model of `FlightDetails` (lib.rs lines 9-20). -/
structure FlightDetails where
  id : FlightId
  max_passengers : Nat
  distance : Int
  src : Sym
  dest : Sym
  status : Sym
  escrow_amount : Int
  passenger_count : Nat
  deriving Repr, DecidableEq

/-- Model of `PassengerRecord` (lib.rs lines 22-28). -/
structure PassengerRecord where
  passenger : Address
  paid : Int
  details : Sym
  deriving Repr, DecidableEq

/-- Model of `FlyStellarError` (lib.rs lines 40-53). -/
inductive FlyStellarError where
  | AlreadyInitialized
  | Unauthorized
  | FlightAlreadyExists
  | FlightNotFound
  | InvalidInput
  | FlightFull
  | InvalidFare
  | PassengerNotFound
  | InvalidStatus
  | NoPassengers
  deriving Repr, DecidableEq

/-- Ways a call can abort: a `panic_with_error!` with a contract error code,
a plain Rust panic (`expect` / `unwrap` / checked-arithmetic overflow) with
its message, or a failed `require_auth` on the given address. -/
inductive Err where
  | err (e : FlyStellarError)
  | trap (msg : String)
  | authFail (a : Address)
  deriving Repr, DecidableEq

/-- Association-list lookup: model of `storage().get(&key)` for a key family. -/
def alookup {α β : Type} [DecidableEq α] (k : α) : List (α × β) → Option β
  | [] => none
  | (k', v) :: rest => if k = k' then some v else alookup k rest

/-- Association-list update/insert: model of `storage().set(&key, &v)`. -/
def aset {α β : Type} [DecidableEq α] (k : α) (v : β) : List (α × β) → List (α × β)
  | [] => [(k, v)]
  | (k', v') :: rest => if k = k' then (k, v) :: rest else (k', v') :: aset k v rest

/-- The key-value store, one field per `DataKey` family (lib.rs lines 30-38).
`admin_inst` is the `DataKey::Admin` entry of the *instance* tier; every other
field lives in the persistent tier. -/
structure Store where
  admin_inst : Option Address
  flights : List (FlightId × FlightDetails)
  routes : List ((Sym × Sym) × List FlightId)
  globalReg : Option (List FlightId)
  passLists : List (FlightId × List PassengerRecord)
  passRegs : List (Address × List FlightId)
  deriving Repr, DecidableEq

/-- Model of `get_admin` (lib.rs lines 60-65): the admin address is a
hardcoded literal; it is read from no storage key. -/
def get_admin : Address := "GCB2UMHX2MZC6WRNIRVAHUKRXWZBYZ7SBZJXQH4XOYVZVU765MQGZR23"

/-- Model of `create_flight` (lib.rs lines 73-181). -/
def create_flight (auths : List Address) (s : Store) (flight_id : FlightId)
    (max_passengers : Nat) (distance : Int) (src dest : Sym) :
    Except Err Store :=
  if get_admin ∈ auths then
    if max_passengers = 0 ∨ distance ≤ 0 then
      .error (.err .InvalidInput)
    else if (alookup flight_id s.flights).isSome then
      .error (.err .FlightAlreadyExists)
    else
      match checkedMulI128 (max_passengers : Int) distance with
      | none => .error (.trap "escrow overflow")
      | some escrow =>
        let details : FlightDetails :=
          { id := flight_id, max_passengers := max_passengers,
            distance := distance, src := src, dest := dest,
            status := "booking", escrow_amount := escrow,
            passenger_count := 0 }
        let s1 := { s with flights := aset flight_id details s.flights }
        let routeOld := (alookup (src, dest) s1.routes).getD []
        let s2 := { s1 with routes := aset (src, dest) (routeOld ++ [flight_id]) s1.routes }
        let globalOld := s2.globalReg.getD []
        .ok { s2 with globalReg := some (globalOld ++ [flight_id]) }
  else .error (.authFail get_admin)

/-- Model of `buy_ticket` (lib.rs lines 184-247). -/
def buy_ticket (auths : List Address) (s : Store) (flight_id : FlightId)
    (passenger : Address) (details : Sym) : Except Err Store :=
  if passenger ∈ auths then
    match alookup flight_id s.flights with
    | none => .error (.trap "Flight not found")
    | some flight =>
      if flight.status ≠ "booking" then
        .error (.err .InvalidStatus)
      else if flight.max_passengers ≤ flight.passenger_count then
        .error (.err .FlightFull)
      else
        let fare := flight.distance
        if fare ≤ 0 then
          .error (.err .InvalidFare)
        else
          let record : PassengerRecord :=
            { passenger := passenger, paid := fare, details := details }
          let oldList := (alookup flight_id s.passLists).getD []
          let s1 := { s with passLists := aset flight_id (oldList ++ [record]) s.passLists }
          let oldReg := (alookup passenger s1.passRegs).getD []
          let s2 := { s1 with passRegs := aset passenger (oldReg ++ [flight_id]) s1.passRegs }
          match checkedAddU32 flight.passenger_count 1 with
          | none => .error (.trap "passenger count overflow")
          | some c =>
            .ok { s2 with
                  flights := aset flight_id { flight with passenger_count := c } s2.flights }
  else .error (.authFail passenger)

/-- One iteration of the refund loop of `cancel_ticket` (lib.rs lines
276-288): the accumulator holds the retained list (`new_list`), the `found`
flag and the `(refund_90, admin_fee)` pairs computed so far.  Rust `i128`
division truncates toward zero, i.e. `Int.tdiv`. -/
def cancelStep (passenger : Address)
    (acc : List PassengerRecord × Bool × List (Int × Int)) (r : PassengerRecord) :
    List PassengerRecord × Bool × List (Int × Int) :=
  if r.passenger = passenger then
    (acc.1, true, acc.2.2 ++ [(Int.tdiv (r.paid * 9) 10, r.paid - Int.tdiv (r.paid * 9) 10)])
  else
    (acc.1 ++ [r], acc.2.1, acc.2.2)

/-- The refund loop of `cancel_ticket` (lib.rs lines 276-288): one
left-to-right pass over the ledger. -/
def cancelLoop (passenger : Address) (l : List PassengerRecord) :
    List PassengerRecord × Bool × List (Int × Int) :=
  l.foldl (cancelStep passenger) ([], false, [])

/-- Model of `cancel_ticket` (lib.rs lines 250-310).  Besides the final store it
returns the list of `(refund_90, admin_fee)` pairs the source computes (and
currently discards, the token transfer being an unimplemented TODO). -/
def cancel_ticket (auths : List Address) (s : Store) (flight_id : FlightId)
    (passenger : Address) : Except Err (Store × List (Int × Int)) :=
  if passenger ∈ auths then
    match alookup flight_id s.flights with
    | none => .error (.trap "Flight not found")
    | some flight =>
      match alookup flight_id s.passLists with
      | none => .error (.trap "No passengers")
      | some pass_list =>
        match s.admin_inst with
        | none => .error (.trap "Admin unwrap failed")
        | some _admin =>
          let res := cancelLoop passenger pass_list
          if res.2.1 then
            let s1 := { s with passLists := aset flight_id res.1 s.passLists }
            let s2 := { s1 with
                        flights := aset flight_id
                          { flight with passenger_count := flight.passenger_count - 1 }
                          s1.flights }
            let s3 :=
              match alookup passenger s2.passRegs with
              | none => s2
              | some reg =>
                { s2 with
                  passRegs := aset passenger (reg.filter (fun id => id ≠ flight_id)) s2.passRegs }
            .ok (s3, res.2.2)
          else .error (.err .PassengerNotFound)
  else .error (.authFail passenger)

/-- Model of `update_flight_status` (lib.rs lines 312-332). -/
def update_flight_status (auths : List Address) (s : Store) (flight_id : FlightId)
    (new_status : Sym) : Except Err Store :=
  if get_admin ∈ auths then
    match alookup flight_id s.flights with
    | none => .error (.trap "Flight not found")
    | some flight =>
      if new_status ≠ "takeoff" ∧ new_status ≠ "cancelled" then
        .error (.err .InvalidStatus)
      else
        .ok { s with flights := aset flight_id { flight with status := new_status } s.flights }
  else .error (.authFail get_admin)

/-- One iteration of the query loop shared by the three list queries (e.g.
lib.rs lines 342-352): fetch the flight record for `id`, push it if it
exists, silently skip it otherwise. -/
def collectStep (s : Store) (out : List FlightDetails) (id : FlightId) :
    List FlightDetails :=
  match alookup id s.flights with
  | some f => out ++ [f]
  | none => out

/-- The query loop shared by the three list queries: walk the id list in
order, keeping the flights whose records exist. -/
def collectFlights (s : Store) (ids : List FlightId) : List FlightDetails :=
  ids.foldl (collectStep s) []

/-- Model of `get_flights_search` (lib.rs lines 334-354); no authorization
required. -/
def get_flights_search (s : Store) (src dest : Sym) : List FlightDetails :=
  collectFlights s ((alookup (src, dest) s.routes).getD [])

/-- Model of `get_flights_admin` (lib.rs lines 356-377); admin-only. -/
def get_flights_admin (auths : List Address) (s : Store) :
    Except Err (List FlightDetails) :=
  if get_admin ∈ auths then .ok (collectFlights s (s.globalReg.getD []))
  else .error (.authFail get_admin)

/-- Model of `get_flight_admin` (lib.rs lines 379-387); admin-only single
fetch. -/
def get_flight_admin (auths : List Address) (s : Store) (flight_id : FlightId) :
    Except Err FlightDetails :=
  if get_admin ∈ auths then
    match alookup flight_id s.flights with
    | some f => .ok f
    | none => .error (.trap "Flight not found")
  else .error (.authFail get_admin)

/-- Model of `get_flights_pass` (lib.rs lines 389-409); no authorization
required. -/
def get_flights_pass (s : Store) (passenger : Address) : List FlightDetails :=
  collectFlights s ((alookup passenger s.passRegs).getD [])

/-! ### Concrete stores used by witnesses and counterexamples -/

/-- The empty store: no `Admin` entry, no flights, no indexes. -/
def emptyStore : Store :=
  { admin_inst := none, flights := [], routes := [], globalReg := none,
    passLists := [], passRegs := [] }

/-- A store whose instance tier holds a `DataKey::Admin` entry.  No contract
operation can produce this entry; it models external provisioning. -/
def adminStore : Store := { emptyStore with admin_inst := some "EXTADMIN" }

/-- Sample passenger address. -/
def p1 : Address := "P1"

/-- Store after `create_flight` of flight 1 (capacity 2, distance 50,
NYC to LON) and two `buy_ticket` calls by `p1`, starting from `adminStore`. -/
def traceStore : Store :=
  ((create_flight [get_admin] adminStore 1 2 50 "NYC" "LON").bind fun s1 =>
    (buy_ticket [p1] s1 1 p1 "econ").bind fun s2 =>
      buy_ticket [p1] s2 1 p1 "econ").toOption.getD emptyStore

/-- Store after the same create and a single `buy_ticket` by `p1`. -/
def oneTraceStore : Store :=
  ((create_flight [get_admin] adminStore 1 2 50 "NYC" "LON").bind fun s1 =>
    buy_ticket [p1] s1 1 p1 "econ").toOption.getD emptyStore

/-- Store after the same create and a single buy, starting from the empty
store: every contract-reachable store has no `DataKey::Admin` entry. -/
def noAdminTraceStore : Store :=
  ((create_flight [get_admin] emptyStore 1 2 50 "NYC" "LON").bind fun s1 =>
    buy_ticket [p1] s1 1 p1 "econ").toOption.getD adminStore

/-- Store after creating flight 2 (capacity 1, distance 100) and one buy by
`p1`: the booked fare `paid` is 100. -/
def fare100Store : Store :=
  ((create_flight [get_admin] adminStore 2 1 100 "NYC" "LON").bind fun s1 =>
    buy_ticket [p1] s1 2 p1 "econ").toOption.getD emptyStore

/-- Store after creating flight 3 (capacity 1, distance 101) and one buy by
`p1`: the booked fare `paid` is 101. -/
def fare101Store : Store :=
  ((create_flight [get_admin] adminStore 3 1 101 "NYC" "LON").bind fun s1 =>
    buy_ticket [p1] s1 3 p1 "econ").toOption.getD emptyStore

/-- Flight record of flight 1 after exactly one booking. -/
def flight1 : FlightDetails :=
  { id := 1, max_passengers := 2, distance := 50, src := "NYC", dest := "LON",
    status := "booking", escrow_amount := 100, passenger_count := 1 }

/-- Ledger record of `p1`'s booking on flight 1. -/
def rec1 : PassengerRecord := { passenger := p1, paid := 50, details := "econ" }

/-- Same as `oneTraceStore` with the flight administratively moved to
`takeoff` (passenger ledger untouched). -/
def takeoffStore : Store :=
  (update_flight_status [get_admin] oneTraceStore 1 "takeoff").toOption.getD emptyStore

/-- Same as `takeoffStore` with the flight then moved to `cancelled`. -/
def cancelledStore : Store :=
  (update_flight_status [get_admin] takeoffStore 1 "cancelled").toOption.getD emptyStore

/-- A store with a dangling route-index entry: ids 1, 7 and 2 are listed on
the NYC-LON route and in the global index, but no flight record exists for
id 7; `p1`'s personal index lists ids 2 and 9, and no record exists for 9. -/
def danglingStore : Store :=
  { admin_inst := none,
    flights := [(1, flight1), (2, { flight1 with id := 2 })],
    routes := [(("NYC", "LON"), [1, 7, 2])],
    globalReg := some [1, 7, 2],
    passLists := [],
    passRegs := [(p1, [2, 9])] }

/-! ### Helper lemmas about the store primitives and the two loops -/

theorem alookup_aset_self {α β : Type} [DecidableEq α] (k : α) (v : β)
    (l : List (α × β)) : alookup k (aset k v l) = some v := by
  induction l with
  | nil => simp [alookup, aset]
  | cons hd tl ih =>
    by_cases h : k = hd.1
    · simp [alookup, aset, h]
    · simp [alookup, aset, h, ih]

theorem alookup_aset_ne {α β : Type} [DecidableEq α] {k k' : α} (v : β)
    (l : List (α × β)) (hne : k ≠ k') :
    alookup k (aset k' v l) = alookup k l := by
  induction l with
  | nil => simp [alookup, aset, hne]
  | cons hd tl ih =>
    by_cases h : k' = hd.1
    · subst h
      simp [alookup, aset, hne]
    · by_cases h2 : k = hd.1
      · simp [alookup, aset, h, h2]
      · simp [alookup, aset, h, h2, ih]

/-- The refund-pair formula applied to a ledger record (lib.rs lines
279-280). -/
theorem cancelLoop_go (p : Address) (l : List PassengerRecord)
    (acc : List PassengerRecord × Bool × List (Int × Int)) :
    l.foldl (cancelStep p) acc =
      (acc.1 ++ l.filter (fun r => r.passenger ≠ p),
       acc.2.1 || l.any (fun r => r.passenger = p),
       acc.2.2 ++ (l.filter (fun r => r.passenger = p)).map
         (fun r => (Int.tdiv (r.paid * 9) 10, r.paid - Int.tdiv (r.paid * 9) 10))) := by
  induction l generalizing acc with
  | nil => simp
  | cons r rest ih =>
    by_cases h : r.passenger = p
    · simp [cancelStep, h, ih]
    · simp [cancelStep, h, ih]

/-- The loop of `cancel_ticket` retains exactly the non-matching records in
order, finds a match iff one exists, and computes one refund pair per
matching record in order. -/
theorem cancelLoop_eq (p : Address) (l : List PassengerRecord) :
    cancelLoop p l =
      (l.filter (fun r => r.passenger ≠ p),
       l.any (fun r => r.passenger = p),
       (l.filter (fun r => r.passenger = p)).map
         (fun r => (Int.tdiv (r.paid * 9) 10, r.paid - Int.tdiv (r.paid * 9) 10))) := by
  simpa using cancelLoop_go p l ([], false, [])

theorem collectFlights_go (s : Store) (ids : List FlightId)
    (acc : List FlightDetails) :
    ids.foldl (collectStep s) acc =
      acc ++ ids.filterMap (fun id => alookup id s.flights) := by
  induction ids generalizing acc with
  | nil => simp
  | cons i rest ih =>
    cases h : alookup i s.flights with
    | none => simp [collectStep, h, ih, List.filterMap_cons]
    | some f => simp [collectStep, h, ih, List.filterMap_cons]

/-- The query loop keeps, in index order, exactly the ids whose flight
record exists. -/
theorem collectFlights_eq (s : Store) (ids : List FlightId) :
    collectFlights s ids = ids.filterMap (fun id => alookup id s.flights) := by
  simpa using collectFlights_go s ids []


/-- Characterization of a successful `cancel_ticket` call. -/
theorem cancel_ticket_ok_spec (auths : List Address) (s : Store) (fid : FlightId)
    (p : Address) (flight : FlightDetails) (l : List PassengerRecord) (adm : Address)
    (hp : p ∈ auths)
    (hf : alookup fid s.flights = some flight)
    (hl : alookup fid s.passLists = some l)
    (ha : s.admin_inst = some adm)
    (hm : l.any (fun r => r.passenger = p) = true) :
    ∃ s' : Store,
      cancel_ticket auths s fid p =
        .ok (s', (l.filter (fun r => r.passenger = p)).map
          (fun r => (Int.tdiv (r.paid * 9) 10, r.paid - Int.tdiv (r.paid * 9) 10))) ∧
      s'.admin_inst = s.admin_inst ∧
      s'.routes = s.routes ∧
      s'.globalReg = s.globalReg ∧
      alookup fid s'.passLists = some (l.filter (fun r => r.passenger ≠ p)) ∧
      (∀ fid', fid' ≠ fid → alookup fid' s'.passLists = alookup fid' s.passLists) ∧
      alookup fid s'.flights =
        some { flight with passenger_count := flight.passenger_count - 1 } ∧
      (∀ fid', fid' ≠ fid → alookup fid' s'.flights = alookup fid' s.flights) ∧
      alookup p s'.passRegs =
        (alookup p s.passRegs).map (fun reg => reg.filter (fun id => id ≠ fid)) ∧
      (∀ q, q ≠ p → alookup q s'.passRegs = alookup q s.passRegs) := by
  simp only [cancel_ticket, hp, if_true, hf, hl, ha, cancelLoop_eq, hm]
  cases hreg : alookup p s.passRegs with
  | none =>
    refine ⟨_, rfl, by simp [ha], rfl, rfl, ?_, ?_, ?_, ?_, ?_, ?_⟩
    · simp [alookup_aset_self]
    · intro fid' hne
      simp [alookup_aset_ne _ _ hne]
    · simp [alookup_aset_self]
    · intro fid' hne
      simp [alookup_aset_ne _ _ hne]
    · simp [hreg]
    · intro q hq
      simp
  | some reg =>
    refine ⟨_, rfl, by simp [ha], rfl, rfl, ?_, ?_, ?_, ?_, ?_, ?_⟩
    · simp [alookup_aset_self]
    · intro fid' hne
      simp [alookup_aset_ne _ _ hne]
    · simp [alookup_aset_self]
    · intro fid' hne
      simp [alookup_aset_ne _ _ hne]
    · simp [hreg, alookup_aset_self]
    · intro q hq
      simp [alookup_aset_ne _ _ hq]



theorem create_flight_admin_inst {auths : List Address} {s : Store}
    {fid : FlightId} {mp : Nat} {d : Int} {src dest : Sym} {s' : Store}
    (h : create_flight auths s fid mp d src dest = .ok s') :
    s'.admin_inst = s.admin_inst := by
  simp only [create_flight] at h
  repeat' split at h
  all_goals
    first
      | exact Except.noConfusion h
      | (injection h with h; subst h; rfl)

theorem buy_ticket_admin_inst {auths : List Address} {s : Store}
    {fid : FlightId} {p : Address} {det : Sym} {s' : Store}
    (h : buy_ticket auths s fid p det = .ok s') :
    s'.admin_inst = s.admin_inst := by
  simp only [buy_ticket] at h
  repeat' split at h
  all_goals
    first
      | exact Except.noConfusion h
      | (injection h with h; subst h; rfl)

theorem update_flight_status_admin_inst {auths : List Address} {s : Store}
    {fid : FlightId} {st : Sym} {s' : Store}
    (h : update_flight_status auths s fid st = .ok s') :
    s'.admin_inst = s.admin_inst := by
  simp only [update_flight_status] at h
  repeat' split at h
  all_goals
    first
      | exact Except.noConfusion h
      | (injection h with h; subst h; rfl)

theorem cancel_ticket_admin_inst {auths : List Address} {s : Store}
    {fid : FlightId} {p : Address} {s' : Store} {refunds : List (Int × Int)}
    (h : cancel_ticket auths s fid p = .ok (s', refunds)) :
    s'.admin_inst = s.admin_inst := by
  simp only [cancel_ticket] at h
  repeat' split at h
  all_goals
    first
      | exact Except.noConfusion h
      | (injection h with h
         rw [Prod.ext_iff] at h
         obtain ⟨h1, h2⟩ := h
         subst h1
         rfl)




/-- C1: whenever the instance-storage `DataKey::Admin` entry is absent,
`cancel_ticket` aborts at the `unwrap` of the admin read (lib.rs line 273) —
with no state modified, since an aborted call discards all writes — even when
the passenger authorized the call, the flight record exists and the ledger
contains a matching record; moreover no public mutating operation ever
writes the `Admin` instance key (the query operations are read-only by
construction), so the precondition cannot be established through the
contract's own operations. -/
theorem cancel_ticket_needs_external_admin_key (auths : List Address)
    (s : Store) (fid : FlightId) (p : Address) (flight : FlightDetails)
    (l : List PassengerRecord) :
    (s.admin_inst = none → p ∈ auths → alookup fid s.flights = some flight →
      alookup fid s.passLists = some l → l.any (fun r => r.passenger = p) = true →
      cancel_ticket auths s fid p = .error (.trap "Admin unwrap failed")) ∧
    (∀ mp d src dest s', create_flight auths s fid mp d src dest = .ok s' →
      s'.admin_inst = s.admin_inst) ∧
    (∀ det s', buy_ticket auths s fid p det = .ok s' →
      s'.admin_inst = s.admin_inst) ∧
    (∀ s' refunds, cancel_ticket auths s fid p = .ok (s', refunds) →
      s'.admin_inst = s.admin_inst) ∧
    (∀ st s', update_flight_status auths s fid st = .ok s' →
      s'.admin_inst = s.admin_inst) := by
  refine ⟨?_, ?_, ?_, ?_, ?_⟩
  · intro hnone hp hf hl _hm
    simp [cancel_ticket, hp, hf, hl, hnone]
  · intro mp d src dest s' h
    exact create_flight_admin_inst h
  · intro det s' h
    exact buy_ticket_admin_inst h
  · intro s' refunds h
    exact cancel_ticket_admin_inst h
  · intro st s' h
    exact update_flight_status_admin_inst h

/-- Witness for C1: on the store reached from the empty store by an actual
create and buy (so the `Admin` instance entry is still absent), `p1`'s
cancellation aborts at the admin `unwrap` even though `p1` authorized the
call, the flight exists and `p1` holds a matching ledger record. -/
theorem cancel_ticket_needs_external_admin_key_witness :
    cancel_ticket [p1] noAdminTraceStore 1 p1 = .error (.trap "Admin unwrap failed") := by
  exact (cancel_ticket_needs_external_admin_key [p1] noAdminTraceStore 1 p1
    flight1 [rec1]).1 (by decide) (by decide) (by decide) (by decide) (by decide)



/-- Counterexample for C2 as stated: on `traceStore` passenger `p1` holds
`k = 2` matching records; the claim predicts `passenger_count` reduced by 2,
i.e. `2 - 2 = 0`, but the successful call leaves it at 1 (the source uses
`saturating_sub(1)` however many records were removed). -/
theorem cancel_decrement_counterexample :
    (cancel_ticket [p1] traceStore 1 p1).toOption.map
        (fun r => ((alookup 1 r.1.flights).map (fun f => f.passenger_count),
                   alookup 1 r.1.passLists))
      = some (some 1, some []) ∧
    (alookup 1 traceStore.flights).map (fun f => f.passenger_count) = some 2 ∧
    (alookup 1 traceStore.passLists).map
        (fun l => (l.filter (fun r => r.passenger = p1)).length) = some 2 ∧
    (1 : Nat) ≠ 2 - 2 := by decide

/-- C2 (amended): a successful `cancel_ticket` removes every record matching
the passenger from the ledger (retaining the others in order) but decrements
`passenger_count` by exactly one — with saturating subtraction, never below
zero — regardless of the number of removed records. -/
theorem cancel_removes_all_decrements_one (auths : List Address) (s : Store)
    (fid : FlightId) (p : Address) (flight : FlightDetails)
    (l : List PassengerRecord) (adm : Address)
    (hp : p ∈ auths)
    (hf : alookup fid s.flights = some flight)
    (hl : alookup fid s.passLists = some l)
    (ha : s.admin_inst = some adm)
    (hm : l.any (fun r => r.passenger = p) = true) :
    (cancel_ticket auths s fid p).toOption.map
        (fun r => (alookup fid r.1.passLists, alookup fid r.1.flights))
      = some (some (l.filter (fun r => r.passenger ≠ p)),
              some { flight with passenger_count := flight.passenger_count - 1 }) := by
  obtain ⟨s', hok, _, _, _, hpl, _, hfl, _, _, _⟩ :=
    cancel_ticket_ok_spec auths s fid p flight l adm hp hf hl ha hm
  rw [hok]
  simp [Except.toOption, hpl, hfl]

/-- Witness for the amended C2: `p1` holds one record on `oneTraceStore`;
cancelling removes it and takes `passenger_count` from 1 to 0. -/
theorem cancel_removes_all_decrements_one_witness :
    (cancel_ticket [p1] oneTraceStore 1 p1).toOption.map
        (fun r => (alookup 1 r.1.passLists, alookup 1 r.1.flights))
      = some (some [], some { flight1 with passenger_count := 0 }) := by
  have h := cancel_removes_all_decrements_one [p1] oneTraceStore 1 p1
    flight1 [rec1] "EXTADMIN" (by decide) (by decide) (by decide) (by decide) (by decide)
  rw [h]
  decide



/-- C3 fails on the code: along the actual workflow trace
create(flight 1) / buy(p1) / buy(p1) the invariant
`passenger_count = number of stored PassengerRecords` holds (2 = 2), but the
subsequent successful `cancel_ticket` by `p1` leaves `passenger_count = 1`
while the stored ledger holds 0 records, because the source decrements with
`saturating_sub(1)` although it removed two records. -/
theorem passenger_count_invariant_broken_by_cancel :
    ((alookup 1 traceStore.flights).map (fun f => f.passenger_count) = some 2 ∧
     ((alookup 1 traceStore.passLists).getD []).length = 2) ∧
    (cancel_ticket [p1] traceStore 1 p1).toOption.map
        (fun r => ((alookup 1 r.1.flights).map (fun f => f.passenger_count),
                   ((alookup 1 r.1.passLists).getD []).length))
      = some (some 1, 0) ∧
    some (1 : Nat) ≠ some 0 := by decide



/-- C4: for every ledger record matching the cancelling passenger the code
computes `refund_90 = paid * 9 / 10` with Rust `i128` division — truncation
toward zero, `Int.tdiv` — and `admin_fee = paid - refund_90`, one pair per
matching record in ledger order; in particular a booking paid 100 yields
(90, 10) and a booking paid 101 yields (90, 11), as evaluated on actual
stores holding such bookings. -/
theorem cancel_refund_split (auths : List Address) (s : Store)
    (fid : FlightId) (p : Address) (flight : FlightDetails)
    (l : List PassengerRecord) (adm : Address)
    (hp : p ∈ auths)
    (hf : alookup fid s.flights = some flight)
    (hl : alookup fid s.passLists = some l)
    (ha : s.admin_inst = some adm)
    (hm : l.any (fun r => r.passenger = p) = true) :
    (cancel_ticket auths s fid p).toOption.map (fun r => r.2)
      = some ((l.filter (fun r => r.passenger = p)).map
          (fun r => (Int.tdiv (r.paid * 9) 10, r.paid - Int.tdiv (r.paid * 9) 10))) ∧
    (cancel_ticket [p1] fare100Store 2 p1).toOption.map (fun r => r.2)
      = some [(90, 10)] ∧
    (cancel_ticket [p1] fare101Store 3 p1).toOption.map (fun r => r.2)
      = some [(90, 11)] := by
  refine ⟨?_, by decide, by decide⟩
  obtain ⟨s', hok, _⟩ :=
    cancel_ticket_ok_spec auths s fid p flight l adm hp hf hl ha hm
  rw [hok]
  simp [Except.toOption]

/-- Witness for C4: instantiated on `fare100Store`, the general refund
formula evaluates to the single pair (90, 10). -/
theorem cancel_refund_split_witness :
    (cancel_ticket [p1] fare100Store 2 p1).toOption.map (fun r => r.2)
      = some [(90, 10)] := by
  have h := (cancel_refund_split [p1] fare100Store 2 p1
    { id := 2, max_passengers := 1, distance := 100, src := "NYC", dest := "LON",
      status := "booking", escrow_amount := 100, passenger_count := 1 }
    [{ passenger := p1, paid := 100, details := "econ" }] "EXTADMIN"
    (by decide) (by decide) (by decide) (by decide) (by decide)).1
  rw [h]
  decide



/-- C5: `create_flight` checks admin authorization, then input validity
(`InvalidInput` when `max_passengers = 0` or `distance ≤ 0`), then
non-existence (`FlightAlreadyExists`), in that order, each failure an abort
with no writes; the escrow multiplication is overflow-checked and fatal on
overflow; on success it stores a `FlightDetails` with
`escrow_amount = max_passengers * distance`, status `booking` and
`passenger_count = 0`, and appends the id exactly once to the route index
and exactly once to the global index, creating each if absent. -/
theorem create_flight_spec (auths : List Address) (s : Store) (fid : FlightId)
    (mp : Nat) (d : Int) (src dest : Sym) :
    (get_admin ∉ auths →
      create_flight auths s fid mp d src dest = .error (.authFail get_admin)) ∧
    (get_admin ∈ auths → (mp = 0 ∨ d ≤ 0) →
      create_flight auths s fid mp d src dest = .error (.err .InvalidInput)) ∧
    (get_admin ∈ auths → ¬(mp = 0 ∨ d ≤ 0) →
      (alookup fid s.flights).isSome = true →
      create_flight auths s fid mp d src dest = .error (.err .FlightAlreadyExists)) ∧
    (get_admin ∈ auths → ¬(mp = 0 ∨ d ≤ 0) → alookup fid s.flights = none →
      i128Max < (mp : Int) * d →
      create_flight auths s fid mp d src dest = .error (.trap "escrow overflow")) ∧
    (get_admin ∈ auths → mp ≠ 0 → 0 < d → alookup fid s.flights = none →
      (mp : Int) * d ≤ i128Max →
      (create_flight auths s fid mp d src dest).toOption.map
          (fun s' => (alookup fid s'.flights, alookup (src, dest) s'.routes, s'.globalReg))
        = some (some { id := fid, max_passengers := mp, distance := d,
                       src := src, dest := dest, status := "booking",
                       escrow_amount := (mp : Int) * d, passenger_count := 0 },
                some (((alookup (src, dest) s.routes).getD []) ++ [fid]),
                some ((s.globalReg.getD []) ++ [fid]))) := by
  refine ⟨?_, ?_, ?_, ?_, ?_⟩
  · intro h
    simp [create_flight, h]
  · intro ha hb
    simp only [create_flight]
    rw [if_pos ha, if_pos hb]
  · intro ha hb hc
    simp only [create_flight]
    rw [if_pos ha, if_neg hb]
    simp [hc]
  · intro ha hb hnone hbig
    have hno : ¬(i128Min ≤ (mp : Int) * d ∧ (mp : Int) * d ≤ i128Max) :=
      fun hand => absurd hand.2 (not_le.mpr hbig)
    have hcm : checkedMulI128 (mp : Int) d = none := by
      simp [checkedMulI128, hno]
    simp [create_flight, ha, hb, hnone, hcm]
  · intro ha hmp hd hnone hle
    have hb : ¬(mp = 0 ∨ d ≤ 0) := by
      push_neg
      exact ⟨hmp, hd⟩
    have h1 : (0 : Int) ≤ (mp : Int) * d :=
      mul_nonneg (Int.natCast_nonneg mp) (le_of_lt hd)
    have hcm : checkedMulI128 (mp : Int) d = some ((mp : Int) * d) := by
      have h2 : i128Min ≤ (mp : Int) * d := le_trans (by norm_num [i128Min]) h1
      simp [checkedMulI128, h2, hle]
    simp [create_flight, ha, hb, hnone, hcm, Except.toOption,
      alookup_aset_self]

/-- Witness for C5 (success case) at a concrete creation on the empty
store: flight 1, capacity 2, distance 50 stores escrow 100 and registers
the id once in the fresh NYC-LON route index and once in the fresh global
index. -/
theorem create_flight_spec_witness :
    (0:Int) < 50 ∧
    (create_flight [get_admin] emptyStore 1 2 50 "NYC" "LON").toOption.map
        (fun s' => (alookup 1 s'.flights, alookup ("NYC", "LON") s'.routes, s'.globalReg))
      = some (some { id := 1, max_passengers := 2, distance := 50,
                     src := "NYC", dest := "LON", status := "booking",
                     escrow_amount := 100, passenger_count := 0 },
              some [1], some [1]) := by
  refine ⟨by decide, ?_⟩
  have h := (create_flight_spec [get_admin] emptyStore 1 2 50 "NYC" "LON").2.2.2.2
    (by decide) (by decide) (by decide) (by decide) (by decide)
  rw [h]
  decide



/-- C6: `buy_ticket`, for an authorized passenger, aborts when the flight
record is absent, signals `InvalidStatus` when the status is not `booking`,
`FlightFull` when `passenger_count ≥ max_passengers`, and `InvalidFare` when
`distance ≤ 0`, every failure an abort with no writes; otherwise it appends
a `PassengerRecord` with `paid = distance` to the flight's ledger, appends
the flight id to the passenger's personal index (duplicates allowed), and
increments `passenger_count` by one via overflow-checked addition (the
`max_passengers ≤ u32Max` hypothesis is the `u32` range bound of the Rust
field, which makes the checked addition succeed). -/
theorem buy_ticket_spec (auths : List Address) (s : Store) (fid : FlightId)
    (p : Address) (det : Sym) (flight : FlightDetails) :
    (p ∉ auths → buy_ticket auths s fid p det = .error (.authFail p)) ∧
    (p ∈ auths → alookup fid s.flights = none →
      buy_ticket auths s fid p det = .error (.trap "Flight not found")) ∧
    (p ∈ auths → alookup fid s.flights = some flight →
      flight.status ≠ "booking" →
      buy_ticket auths s fid p det = .error (.err .InvalidStatus)) ∧
    (p ∈ auths → alookup fid s.flights = some flight →
      flight.status = "booking" →
      flight.max_passengers ≤ flight.passenger_count →
      buy_ticket auths s fid p det = .error (.err .FlightFull)) ∧
    (p ∈ auths → alookup fid s.flights = some flight →
      flight.status = "booking" →
      flight.passenger_count < flight.max_passengers →
      flight.distance ≤ 0 →
      buy_ticket auths s fid p det = .error (.err .InvalidFare)) ∧
    (p ∈ auths → alookup fid s.flights = some flight →
      flight.status = "booking" →
      flight.passenger_count < flight.max_passengers →
      flight.max_passengers ≤ u32Max →
      0 < flight.distance →
      (buy_ticket auths s fid p det).toOption.map
          (fun s' => (alookup fid s'.passLists, alookup p s'.passRegs,
                      alookup fid s'.flights))
        = some (some ((alookup fid s.passLists).getD []
                  ++ [{ passenger := p, paid := flight.distance, details := det }]),
                some ((alookup p s.passRegs).getD [] ++ [fid]),
                some { flight with passenger_count := flight.passenger_count + 1 })) := by
  refine ⟨?_, ?_, ?_, ?_, ?_, ?_⟩
  · intro h
    simp [buy_ticket, h]
  · intro hp hnone
    simp [buy_ticket, hp, hnone]
  · intro hp hf hst
    simp [buy_ticket, hp, hf, hst]
  · intro hp hf hst hfull
    simp [buy_ticket, hp, hf, hst, hfull]
  · intro hp hf hst hcount hfare
    have hnf : ¬(flight.max_passengers ≤ flight.passenger_count) := not_le.mpr hcount
    simp [buy_ticket, hp, hf, hst, hnf, hfare]
  · intro hp hf hst hcount hmax hfare
    have hnf : ¬(flight.max_passengers ≤ flight.passenger_count) := not_le.mpr hcount
    have hnfare : ¬(flight.distance ≤ 0) := not_le.mpr hfare
    have hadd : checkedAddU32 flight.passenger_count 1
        = some (flight.passenger_count + 1) := by
      have : flight.passenger_count + 1 ≤ u32Max := by omega
      simp [checkedAddU32, this]
    simp [buy_ticket, hp, hf, hst, hnf, hnfare, hadd, Except.toOption,
      alookup_aset_self]

/-- Witness for C6 (success case): `p1` books flight 1 on the store where it
was just created; the ledger and the personal index are created with the
single new entry, and `passenger_count` becomes 1. -/
theorem buy_ticket_spec_witness :
    (0:Int) < 50 ∧
    ((create_flight [get_admin] adminStore 1 2 50 "NYC" "LON").toOption.getD emptyStore
        |> fun s0 => (buy_ticket [p1] s0 1 p1 "econ").toOption.map
          (fun s' => (alookup 1 s'.passLists, alookup p1 s'.passRegs, alookup 1 s'.flights)))
      = some (some [rec1], some [1], some flight1) := by
  refine ⟨by decide, ?_⟩
  have h := (buy_ticket_spec [p1]
    ((create_flight [get_admin] adminStore 1 2 50 "NYC" "LON").toOption.getD emptyStore)
    1 p1 "econ" { flight1 with passenger_count := 0 }).2.2.2.2.2
    (by decide) (by decide) (by decide) (by decide) (by decide) (by decide)
  simp only []
  rw [h]
  decide

/-- C7: `update_flight_status`, under admin authorization and an existing
flight, accepts only `takeoff` and `cancelled` — any other value, including
`booking`, aborts with `InvalidStatus`, leaving the stored status unchanged
since an aborted call writes nothing — and once validated it overwrites the
status unconditionally, with no check of the current status, so both
`takeoff -> cancelled` and `cancelled -> takeoff` succeed. -/
theorem update_flight_status_spec (auths : List Address) (s : Store)
    (fid : FlightId) (st : Sym) (flight : FlightDetails) :
    (get_admin ∉ auths →
      update_flight_status auths s fid st = .error (.authFail get_admin)) ∧
    (get_admin ∈ auths → alookup fid s.flights = none →
      update_flight_status auths s fid st = .error (.trap "Flight not found")) ∧
    (get_admin ∈ auths → alookup fid s.flights = some flight →
      st ≠ "takeoff" → st ≠ "cancelled" →
      update_flight_status auths s fid st = .error (.err .InvalidStatus)) ∧
    (get_admin ∈ auths → alookup fid s.flights = some flight →
      (st = "takeoff" ∨ st = "cancelled") →
      (update_flight_status auths s fid st).toOption.map
          (fun s' => alookup fid s'.flights)
        = some (some { flight with status := st })) := by
  refine ⟨?_, ?_, ?_, ?_⟩
  · intro h
    simp [update_flight_status, h]
  · intro ha hnone
    simp [update_flight_status, ha, hnone]
  · intro ha hf h1 h2
    simp [update_flight_status, ha, hf, h1, h2]
  · intro ha hf hor
    have hno : ¬(st ≠ "takeoff" ∧ st ≠ "cancelled") := by
      rcases hor with h | h
      · exact fun hand => hand.1 h
      · exact fun hand => hand.2 h
    simp [update_flight_status, ha, hf, hno, Except.toOption, alookup_aset_self]

/-- Witness for C7: on a flight whose status is `takeoff` the admin may set
`cancelled`; on the resulting `cancelled` flight the admin may set `takeoff`
again; and setting `booking` is rejected with `InvalidStatus`. -/
theorem update_flight_status_spec_witness :
    (update_flight_status [get_admin] takeoffStore 1 "cancelled").toOption.map
        (fun s' => alookup 1 s'.flights)
      = some (some { flight1 with status := "cancelled" }) ∧
    (update_flight_status [get_admin] cancelledStore 1 "takeoff").toOption.map
        (fun s' => alookup 1 s'.flights)
      = some (some { flight1 with status := "takeoff" }) ∧
    update_flight_status [get_admin] takeoffStore 1 "booking"
      = .error (.err .InvalidStatus) := by
  refine ⟨?_, ?_, ?_⟩
  · have h := (update_flight_status_spec [get_admin] takeoffStore 1 "cancelled"
      { flight1 with status := "takeoff" }).2.2.2 (by decide) (by decide) (Or.inr rfl)
    rw [h]
  · have h := (update_flight_status_spec [get_admin] cancelledStore 1 "takeoff"
      { flight1 with status := "cancelled" }).2.2.2 (by decide) (by decide) (Or.inl rfl)
    rw [h]
  · exact (update_flight_status_spec [get_admin] takeoffStore 1 "booking"
      { flight1 with status := "takeoff" }).2.2.1 (by decide) (by decide)
      (by decide) (by decide)



theorem filterMap_map_id_eq (g g' : FlightId → Option FlightDetails)
    (h : ∀ id, (g' id).map (fun f => f.id) = (g id).map (fun f => f.id))
    (ids : List FlightId) :
    (ids.filterMap g').map (fun f => f.id) = (ids.filterMap g).map (fun f => f.id) := by
  induction ids with
  | nil => simp
  | cons i rest ih =>
    have hi := h i
    cases h1 : g' i with
    | none =>
      cases h2 : g i with
      | none => simpa [List.filterMap_cons, h1, h2] using ih
      | some f =>
        rw [h1, h2] at hi
        simp at hi
    | some f =>
      cases h2 : g i with
      | none =>
        rw [h1, h2] at hi
        simp at hi
      | some f' =>
        rw [h1, h2] at hi
        simp only [Option.map_some', Option.some.injEq] at hi
        simp [List.filterMap_cons, h1, h2, ih, hi]

/-- C9: the three list queries treat a missing index as the empty list, and
each returns exactly the records of the index entries that exist, in index
order — a dangling id (no flight record) is silently skipped, never an
error.  `List.filterMap` expresses both the skipping and the preservation of
relative order. -/
theorem query_dangling_tolerance (s : Store) (src dest : Sym) (p : Address)
    (auths : List Address) :
    (alookup (src, dest) s.routes = none → get_flights_search s src dest = []) ∧
    (alookup p s.passRegs = none → get_flights_pass s p = []) ∧
    (s.globalReg = none → get_admin ∈ auths → get_flights_admin auths s = .ok []) ∧
    get_flights_search s src dest
      = ((alookup (src, dest) s.routes).getD []).filterMap
          (fun id => alookup id s.flights) ∧
    get_flights_pass s p
      = ((alookup p s.passRegs).getD []).filterMap (fun id => alookup id s.flights) ∧
    (get_admin ∈ auths →
      get_flights_admin auths s
        = .ok ((s.globalReg.getD []).filterMap (fun id => alookup id s.flights))) := by
  refine ⟨?_, ?_, ?_, ?_, ?_, ?_⟩
  · intro h
    simp [get_flights_search, h, collectFlights_eq]
  · intro h
    simp [get_flights_pass, h, collectFlights_eq]
  · intro h ha
    simp [get_flights_admin, h, ha, collectFlights_eq]
  · simp [get_flights_search, collectFlights_eq]
  · simp [get_flights_pass, collectFlights_eq]
  · intro ha
    simp [get_flights_admin, ha, collectFlights_eq]

/-- Witness for C9 on `danglingStore`: the NYC-LON route index lists ids
1, 7, 2 but id 7 has no record, so the search returns the records of 1 and 2
in order; a route with no index yields `[]`; `p1`'s personal index lists
ids 2 and 9 with 9 dangling, yielding only flight 2; the global query
(admin-authorized) also skips id 7. -/
theorem query_dangling_tolerance_witness :
    get_flights_search danglingStore "NYC" "LON" = [flight1, { flight1 with id := 2 }] ∧
    get_flights_search danglingStore "AAA" "BBB" = [] ∧
    get_flights_pass danglingStore p1 = [{ flight1 with id := 2 }] ∧
    get_flights_admin [get_admin] danglingStore
      = .ok [flight1, { flight1 with id := 2 }] := by
  refine ⟨?_, ?_, ?_, ?_⟩
  · have h := (query_dangling_tolerance danglingStore "NYC" "LON" p1 [get_admin]).2.2.2.1
    rw [h]
    decide
  · exact (query_dangling_tolerance danglingStore "AAA" "BBB" p1 [get_admin]).1 (by decide)
  · have h := (query_dangling_tolerance danglingStore "NYC" "LON" p1 [get_admin]).2.2.2.2.1
    rw [h]
    decide
  · have h := (query_dangling_tolerance danglingStore "NYC" "LON" p1 [get_admin]).2.2.2.2.2
      (by decide)
    rw [h]
    simp only [Except.ok.injEq]
    decide



/-- C8: a successful `cancel_ticket` removes every occurrence of the flight
id from the cancelling passenger's personal index, leaves the route and
global indexes untouched, and keeps every flight record's existence and id
intact, so `get_flights_search` on any route and `get_flights_admin` return
the same flight ids as before the cancellation. -/
theorem cancel_keeps_route_and_global_index (auths : List Address) (s : Store)
    (fid : FlightId) (p : Address) (flight : FlightDetails)
    (l : List PassengerRecord) (adm : Address)
    (hp : p ∈ auths)
    (hf : alookup fid s.flights = some flight)
    (hl : alookup fid s.passLists = some l)
    (ha : s.admin_inst = some adm)
    (hm : l.any (fun r => r.passenger = p) = true) :
    ∃ s' refunds, cancel_ticket auths s fid p = .ok (s', refunds) ∧
      alookup p s'.passRegs
        = (alookup p s.passRegs).map (fun reg => reg.filter (fun id => id ≠ fid)) ∧
      s'.routes = s.routes ∧
      s'.globalReg = s.globalReg ∧
      (∀ src dest, (get_flights_search s' src dest).map (fun f => f.id)
          = (get_flights_search s src dest).map (fun f => f.id)) ∧
      (∀ A, (get_flights_admin A s').toOption.map (fun fs => fs.map (fun f => f.id))
          = (get_flights_admin A s).toOption.map (fun fs => fs.map (fun f => f.id))) := by
  obtain ⟨s', hok, _hadm, hroutes, hglobal, _hpl, _hplne, hfl, hflne, hpreg, _hpregne⟩ :=
    cancel_ticket_ok_spec auths s fid p flight l adm hp hf hl ha hm
  have hid : ∀ id : FlightId, (alookup id s'.flights).map (fun f => f.id)
      = (alookup id s.flights).map (fun f => f.id) := by
    intro id
    by_cases hidf : id = fid
    · subst hidf
      rw [hfl, hf]
      rfl
    · rw [hflne id hidf]
  refine ⟨s', _, hok, hpreg, hroutes, hglobal, ?_, ?_⟩
  · intro src dest
    simp only [get_flights_search, collectFlights_eq, hroutes]
    exact filterMap_map_id_eq _ _ hid _
  · intro A
    by_cases hA : get_admin ∈ A
    · simp only [get_flights_admin, hA, if_true, collectFlights_eq, hglobal,
        Except.toOption, Option.map_some']
      rw [filterMap_map_id_eq _ _ hid _]
    · simp [get_flights_admin, hA, Except.toOption]

/-- Witness for C8: after `p1` cancels on `traceStore`, `p1`'s personal
index is emptied while the NYC-LON route index, the global index and the
search result's flight ids are unchanged. -/
theorem cancel_keeps_route_and_global_index_witness :
    (cancel_ticket [p1] traceStore 1 p1).toOption.map
        (fun r => alookup p1 r.1.passRegs) = some (some []) ∧
    (cancel_ticket [p1] traceStore 1 p1).toOption.map
        (fun r => r.1.routes) = some [(("NYC", "LON"), [1])] ∧
    (cancel_ticket [p1] traceStore 1 p1).toOption.map
        (fun r => r.1.globalReg) = some (some [1]) ∧
    (cancel_ticket [p1] traceStore 1 p1).toOption.map
        (fun r => (get_flights_search r.1 "NYC" "LON").map (fun f => f.id))
      = some [1] := by
  obtain ⟨s', refunds, hok, h1, h2, h3, h4, _h5⟩ :=
    cancel_keeps_route_and_global_index [p1] traceStore 1 p1
      { flight1 with passenger_count := 2 } [rec1, rec1] "EXTADMIN"
      (by decide) (by decide) (by decide) (by decide) (by decide)
  rw [hok]
  refine ⟨?_, ?_, ?_, ?_⟩
  · show some (alookup p1 s'.passRegs) = _
    rw [h1]
    decide
  · show some s'.routes = _
    rw [h2]
    decide
  · show some s'.globalReg = _
    rw [h3]
    decide
  · show some ((get_flights_search s' "NYC" "LON").map (fun f => f.id)) = _
    rw [h4 "NYC" "LON"]
    decide

/-- C10: `cancel_ticket` never inspects the flight's status: under the other
preconditions (authorization, existing flight, existing ledger with a
matching record, `Admin` entry present) the call succeeds whatever the
status — `takeoff` and `cancelled` included — removing the matching records,
computing the refunds, applying the (saturating, by-one) decrement, and
storing the flight back with its status unchanged. -/
theorem cancel_ticket_ignores_status (auths : List Address) (s : Store)
    (fid : FlightId) (p : Address) (flight : FlightDetails)
    (l : List PassengerRecord) (adm : Address)
    (hp : p ∈ auths)
    (hf : alookup fid s.flights = some flight)
    (hl : alookup fid s.passLists = some l)
    (ha : s.admin_inst = some adm)
    (hm : l.any (fun r => r.passenger = p) = true) :
    (cancel_ticket auths s fid p).toOption.map
        (fun r => (alookup fid r.1.passLists,
                   (alookup fid r.1.flights).map (fun f => (f.status, f.passenger_count)),
                   r.2))
      = some (some (l.filter (fun r => r.passenger ≠ p)),
              some (flight.status, flight.passenger_count - 1),
              (l.filter (fun r => r.passenger = p)).map
                (fun r => (Int.tdiv (r.paid * 9) 10, r.paid - Int.tdiv (r.paid * 9) 10))) := by
  obtain ⟨s', hok, _, _, _, hpl, _, hfl, _, _, _⟩ :=
    cancel_ticket_ok_spec auths s fid p flight l adm hp hf hl ha hm
  rw [hok]
  simp [Except.toOption, hpl, hfl]

/-- Witness for C10: on `takeoffStore` — flight 1 already in status
`takeoff` — `p1`'s cancellation still succeeds, removes the record, computes
the refund pair (45, 5) and preserves the status. -/
theorem cancel_ticket_ignores_status_witness :
    (cancel_ticket [p1] takeoffStore 1 p1).toOption.map
        (fun r => (alookup 1 r.1.passLists,
                   (alookup 1 r.1.flights).map (fun f => (f.status, f.passenger_count)),
                   r.2))
      = some (some [], some ("takeoff", 0), [(45, 5)]) := by
  have h := cancel_ticket_ignores_status [p1] takeoffStore 1 p1
    { flight1 with status := "takeoff" } [rec1] "EXTADMIN"
    (by decide) (by decide) (by decide) (by decide) (by decide)
  rw [h]
  decide

end FlyStellar
